import Mathlib

/-!
Verification of the image-scraping pipeline of the virtual-tryon repository.

The development shallowly embeds the TypeScript route handlers:
* `src/app/api/scrape-image/route.ts` (static extractor, URL normalization,
  candidate filter, POST orchestration),
* `src/app/api/fetch-image/route.ts` (single-image fetcher), and
* the rendered-browser variant of the scrape route (`src/unnamed/part_000`),
  modelled in namespace `Dyn`.

Pure string manipulation done by JavaScript builtins (`String.prototype.startsWith`,
`String.prototype.includes`) is modelled over `List Char`; network and browser
effects are passed in explicitly as environment values describing the outcome of
each external call, exactly at the points where the source performs them.
-/

/-- Model of JS `t.isPrefixOf s` character comparison: `prefixB t s` is `true`
iff the character list `t` is a prefix of `s`. -/
def prefixB : List Char → List Char → Bool
  | [], _ => true
  | _ :: _, [] => false
  | a :: t, b :: s => a == b && prefixB t s

/-- Model of substring occurrence: `subB t s` is `true` iff `t` occurs as a
contiguous run inside `s`. -/
def subB (t : List Char) : List Char → Bool
  | [] => match t with
          | [] => true
          | _ :: _ => false
  | c :: s => prefixB t (c :: s) || subB t s

/-- Model of JS `s.startsWith(p)`. -/
def jsStartsWith (s p : String) : Bool := prefixB p.data s.data

/-- Model of JS `s.includes(t)` (case-sensitive substring containment, as in
JavaScript). -/
def jsIncludes (s t : String) : Bool := subB t.data s.data

/-- JS truthiness of a nullable string (`null`/`undefined` and `""` are falsy). -/
def truthyS : Option String → Bool
  | none => false
  | some s => !(s == "")

theorem prefixB_iff (t s : List Char) : prefixB t s = true ↔ ∃ r, s = t ++ r := by
  induction t generalizing s with
  | nil =>
    simp only [prefixB, List.nil_append, true_iff]
    exact ⟨s, rfl⟩
  | cons a t ih =>
    cases s with
    | nil =>
      simp only [prefixB, List.cons_append, Bool.false_eq_true, false_iff]
      rintro ⟨r, h⟩
      exact List.noConfusion h
    | cons b s =>
      simp only [prefixB, Bool.and_eq_true, beq_iff_eq, ih, List.cons_append]
      constructor
      · rintro ⟨rfl, r, rfl⟩
        exact ⟨r, rfl⟩
      · rintro ⟨r, h⟩
        injection h with h1 h2
        exact ⟨h1.symm, r, h2⟩

theorem prefixB_append (t s r : List Char) (h : prefixB t s = true) :
    prefixB t (s ++ r) = true := by
  obtain ⟨q, rfl⟩ := (prefixB_iff t s).1 h
  rw [prefixB_iff]
  exact ⟨q ++ r, by simp⟩

theorem subB_iff (t s : List Char) : subB t s = true ↔ ∃ a b, s = a ++ t ++ b := by
  induction s with
  | nil =>
    cases t with
    | nil =>
      simp only [subB, true_iff]
      exact ⟨[], [], rfl⟩
    | cons c ts =>
      simp only [subB, Bool.false_eq_true, false_iff]
      rintro ⟨a, b, h⟩
      rcases List.append_eq_nil.1 h.symm with ⟨h1, -⟩
      rcases List.append_eq_nil.1 h1 with ⟨-, h2⟩
      exact List.noConfusion h2
  | cons c s ih =>
    simp only [subB, Bool.or_eq_true, ih, prefixB_iff]
    constructor
    · rintro (⟨r, hr⟩ | ⟨a, b, hab⟩)
      · exact ⟨[], r, by simpa using hr⟩
      · exact ⟨c :: a, b, by simp [hab]⟩
    · rintro ⟨a, b, hab⟩
      cases a with
      | nil => exact Or.inl ⟨b, by simpa using hab⟩
      | cons x a =>
        simp only [List.cons_append] at hab
        injection hab with h1 h2
        exact Or.inr ⟨a, b, h2⟩

theorem strData_append (a b : String) : (a ++ b).data = a.data ++ b.data := by
  obtain ⟨x⟩ := a
  obtain ⟨y⟩ := b
  rfl

theorem jsStartsWith_append (a b p : String) (h : jsStartsWith a p = true) :
    jsStartsWith (a ++ b) p = true := by
  unfold jsStartsWith at h ⊢
  rw [strData_append]
  exact prefixB_append _ _ _ h

/-- A string with a nonempty literal as prefix is itself nonempty (for the
JS-truthiness checks of the handlers). -/
theorem startsWith_ne_empty (s p : String) (a : Char) (t : List Char)
    (hp : p.data = a :: t) (h : jsStartsWith s p = true) : (s == "") = false := by
  obtain ⟨r, hr⟩ := (prefixB_iff p.data s.data).1 h
  obtain ⟨l⟩ := s
  have e : l = p.data ++ r := hr
  rw [hp] at e
  subst e
  rfl

/-! ## JSON values and the JSON-LD product scan (scrape-image route, strategy 3)

`JVal` models the JSON values produced by `JSON.parse` on the embedded
structured-data blocks (strings, arrays, objects with string keys, `null`;
the fragment exercised by the product-schema scan). A parse failure of a
block is modelled as `none` in the block list. A JS `TypeError` thrown while
traversing a block (property access on `null`, `for..of` over a non-iterable)
is modelled with `Except`, whose error payload carries the current value of
the mutable `imageUrl` variable at the throw point, because the enclosing
`catch` keeps that value. -/

inductive JVal where
  | str (s : String)
  | arr (xs : List JVal)
  | obj (fields : List (String × JVal))
  | null

/-- Field lookup on a parsed JSON object (duplicate keys already resolved by
the parser). -/
def jLookup (k : String) : List (String × JVal) → Option JVal
  | [] => none
  | (k2, v) :: rest => if k2 == k then some v else jLookup k rest

/-- JS truthiness of a JSON value. -/
def jsTruthy : JVal → Bool
  | .str s => !(s == "")
  | .null => false
  | _ => true

/-- JS truthiness of a possibly-`undefined` JSON value. -/
def truthyJ : Option JVal → Bool
  | none => false
  | some v => jsTruthy v

/-- The `schema['@type'] === 'Product'` comparison. -/
def isProductType : Option JVal → Bool
  | some (.str s) => s == "Product"
  | _ => false

/-- JS property access `v[k]`: `undefined` on non-objects, a `TypeError` on
`null` (the error carries the current `imageUrl` value `cur`). -/
def jGetE (cur : Option JVal) (k : String) (v : JVal) : Except (Option JVal) (Option JVal) :=
  match v with
  | .obj fs => .ok (jLookup k fs)
  | .null => .error cur
  | _ => .ok none

/-- `Array.isArray(schema.image) ? schema.image[0] : (typeof schema.image ===
'object' ? schema.image.url : schema.image)` (route.ts lines 33-34). `null`
has JS `typeof` `'object'`, so `null.url` throws. -/
def productImageE (cur : Option JVal) : JVal → Except (Option JVal) (Option JVal)
  | .arr xs => .ok xs.head?
  | .obj fs => .ok (jLookup "url" fs)
  | .null => .error cur
  | v => .ok (some v)

/-- The `@graph` node variant (route.ts lines 41-42): first
`Array.isArray(node.image) ? node.image[0] : node.image`, then
`typeof img === 'object' ? img.url : img`. -/
def graphImageE (cur : Option JVal) (img : JVal) : Except (Option JVal) (Option JVal) :=
  let i : Option JVal := match img with
    | .arr xs => xs.head?
    | v => some v
  match i with
  | none => .ok none
  | some (.obj fs) => .ok (jLookup "url" fs)
  | some .null => .error cur
  | some v => .ok (some v)

/-- The inner `for (const node of schema['@graph'])` loop (route.ts 39-45):
on the first `Product` node with truthy image, assign `imageUrl` and break. -/
def processGraph (cur : Option JVal) : List JVal → Except (Option JVal) (Option JVal)
  | [] => .ok cur
  | node :: rest =>
    match jGetE cur "@type" node with
    | .error e => .error e
    | .ok ty =>
      match jGetE cur "image" node with
      | .error e => .error e
      | .ok img =>
        if isProductType ty && truthyJ img then
          match img with
          | some i => graphImageE cur i
          | none => .ok cur
        else processGraph cur rest

/-- The `for (const schema of schemas)` loop (route.ts 31-47). A direct
`Product` match assigns `imageUrl` and breaks the loop; a `@graph` hit
assigns without breaking, so later schemas may overwrite. `for..of` over a
truthy non-array, non-string `@graph` throws. -/
def processSchemas (cur : Option JVal) : List JVal → Except (Option JVal) (Option JVal)
  | [] => .ok cur
  | schema :: rest =>
    match jGetE cur "@type" schema with
    | .error e => .error e
    | .ok ty =>
      match jGetE cur "image" schema with
      | .error e => .error e
      | .ok img =>
        if isProductType ty && truthyJ img then
          match img with
          | some i => productImageE cur i
          | none => .ok cur
        else
          match jGetE cur "@graph" schema with
          | .error e => .error e
          | .ok g =>
            if truthyJ g then
              match g with
              | some (.arr nodes) =>
                match processGraph cur nodes with
                | .error e => .error e
                | .ok cur2 => processSchemas cur2 rest
              | some (.str _) => processSchemas cur rest
              | some _ => .error cur
              | none => processSchemas cur rest
            else processSchemas cur rest

/-- The block loop of strategy 3 (route.ts 26-52): each block is the parse
outcome of one `ld+json` script (`none` = `JSON.parse` threw). A throw while
traversing a block is caught and the block skipped, keeping any assignment
made before the throw; `if (imageUrl) break;` runs only on normal completion
of a block. -/
def processBlocks (cur : Option JVal) : List (Option JVal) → Option JVal
  | [] => cur
  | none :: rest => processBlocks cur rest
  | some data :: rest =>
    let schemas := match data with
      | .arr xs => xs
      | v => [v]
    match processSchemas cur schemas with
    | .error cur2 => processBlocks cur2 rest
    | .ok cur2 => if truthyJ cur2 then cur2 else processBlocks cur2 rest

/-! ## URL normalization (route.ts lines 114-135) -/

/-- Characters of the host (and port) part: everything up to the first
path/query/fragment delimiter. -/
def hostChars (l : List Char) : List Char :=
  l.takeWhile (fun c => !(c == '/' || c == '?' || c == '#'))

/-- Model of the JS builtin `new URL(baseUrl).origin`, restricted to
`http(s)` base URLs; `none` models the constructor throwing on a malformed
base. -/
def parseOrigin (s : String) : Option String :=
  if jsStartsWith s "https://" then
    some ("https://" ++ String.mk (hostChars (s.data.drop 8)))
  else if jsStartsWith s "http://" then
    some ("http://" ++ String.mk (hostChars (s.data.drop 7)))
  else none

/-- The make-URL-absolute step (route.ts 114-135), applied to a truthy
extracted `imageUrl`. `none` models the `catch { return null }` taken when
the base URL cannot be parsed; inputs starting with `"http"` pass through. -/
def makeAbsolute (imageUrl : String) (baseUrl : String) : Option String :=
  if jsStartsWith imageUrl "//" then some ("https:" ++ imageUrl)
  else if jsStartsWith imageUrl "/" then
    match parseOrigin baseUrl with
    | some origin => some (origin ++ imageUrl)
    | none => none
  else if jsStartsWith imageUrl "http" then some imageUrl
  else
    match parseOrigin baseUrl with
    | some origin => some (origin ++ "/" ++ imageUrl)
    | none => none

/-! ## Candidate filter (route.ts strategy 6, lines 97-107) -/

/-- The denylist tokens of the first-reasonable-image scan, exactly as they
appear in the source. -/
def denylistTokens : List String :=
  ["icon", "logo", "favicon", "placeholder", "1x1", "sprite", "tracking", "pixel"]

/-- A URL is rejected when it contains one of the denylist tokens, via the
case-sensitive JS `includes`. -/
def rejectedByDenylist (src : String) : Bool :=
  denylistTokens.any (fun t => jsIncludes src t)

/-- Recognized raster-image extensions checked by strategy 6. -/
def imageExts : List String := [".jpg", ".jpeg", ".png", ".webp"]

/-- The full accept condition of strategy 6 on one `img` source: no denylist
token, not an inline `data:` URL, and a recognized image extension. -/
def candidateOk (src : String) : Bool :=
  !(rejectedByDenylist src) && !(jsStartsWith src "data:") &&
    (imageExts.any (fun e => jsIncludes src e))

/-! ## Static extractor (route.ts `extractImageFromHtml`, lines 4-136)

The regex engine is a JS builtin; an `HtmlScan` records, for one HTML text,
the capture each of the seven scans of the source would produce on it:
first capture of the Open Graph / Twitter meta patterns, the parse outcome
of every `ld+json` block in document order, the first capture of each of the
four lazy-load data-attribute patterns (strategy 4) and of the three
class/src patterns (strategy 5) in their source order, and every capture of
the strategy-6 `img src|data-src` matchAll, in document order. The handler
logic consuming those captures is embedded verbatim. -/

structure HtmlScan where
  ogImage : Option String
  twitterImage : Option String
  jsonLdBlocks : List (Option JVal)
  dataAttrMatches : List (Option String)
  classPatternMatches : List (Option String)
  imgTagSrcs : List String

/-- First pattern of a fixed pattern list whose match has a truthy first
capture (`if (match && match[1]) { imageUrl = match[1]; break; }`). -/
def firstTruthyMatch : List (Option String) → Option String
  | [] => none
  | none :: rest => firstTruthyMatch rest
  | some s :: rest => if s == "" then firstTruthyMatch rest else some s

/-- One `if (!imageUrl) { ...assign on match... }` strategy step: keep a
truthy current value; otherwise take the strategy result if it found one,
else keep the current (possibly falsy) value. -/
def orElseTruthy (cur : Option JVal) (next : Option String) : Option JVal :=
  if truthyJ cur then cur
  else match next with
    | some s => some (.str s)
    | none => cur

/-- `extractImageFromHtml` (route.ts 4-136). The result is the returned
`imageUrl` (`none` = JS `null`); `.error ()` models the `TypeError` thrown
by `imageUrl.startsWith` when strategy 3 left a truthy non-string value,
which propagates to the caller. -/
def extractImageFromHtml (scan : HtmlScan) (baseUrl : String) : Except Unit (Option String) :=
  let v1 : Option JVal := match scan.ogImage with
    | some s => some (.str s)
    | none => none
  let v2 : Option JVal := if truthyJ v1 then v1 else
    match scan.twitterImage with
    | some s => some (.str s)
    | none => v1
  let v3 : Option JVal := if truthyJ v2 then v2 else processBlocks v2 scan.jsonLdBlocks
  let v4 : Option JVal := orElseTruthy v3 (firstTruthyMatch scan.dataAttrMatches)
  let v5 : Option JVal := orElseTruthy v4 (firstTruthyMatch scan.classPatternMatches)
  let v6 : Option JVal := orElseTruthy v5
    (scan.imgTagSrcs.find? (fun s => !(s == "") && candidateOk s))
  match v6 with
  | none => .ok none
  | some .null => .ok none
  | some (.str s) => if s == "" then .ok (some "") else .ok (makeAbsolute s baseUrl)
  | some _ => .error ()

/-- Outcome of the page `fetch` performed by a scrape pass: the call threw,
returned a non-`ok` response, or delivered HTML described by its scan. -/
inductive PageFetch where
  | fetchError
  | notOk
  | ok (scan : HtmlScan)

/-- `simpleScrape` (route.ts 139-157): non-`ok` page responses and any
thrown error yield `null`. -/
def simpleScrape (pf : PageFetch) (url : String) : Option String :=
  match pf with
  | .fetchError => none
  | .notOk => none
  | .ok scan =>
    match extractImageFromHtml scan url with
    | .ok r => r
    | .error _ => none

/-- `mobileScrape` (route.ts 160-176) differs from `simpleScrape` only in
the request headers it sends, which live outside the model; its handler
logic is identical. -/
def mobileScrape (pf : PageFetch) (url : String) : Option String :=
  simpleScrape pf url

/-! ## Base64 encoding and the image fetch step -/

/-- The base64 alphabet. -/
def b64Alphabet : List Char :=
  "ABCDEFGHIJKLMNOPQRSTUVWXYZabcdefghijklmnopqrstuvwxyz0123456789+/".data

/-- Character for one 6-bit group. -/
def b64Char (n : Nat) : Char := b64Alphabet.getD n 'A'

/-- Model of the builtin `Buffer.toString('base64')` on a byte list. -/
def base64Encode : List Nat → List Char
  | [] => []
  | [a] => [b64Char (a / 4), b64Char (a % 4 * 16), '=', '=']
  | [a, b] => [b64Char (a / 4), b64Char (a % 4 * 16 + b / 16), b64Char (b % 16 * 4), '=']
  | a :: b :: c :: rest =>
    b64Char (a / 4) :: b64Char (a % 4 * 16 + b / 16) ::
      b64Char (b % 16 * 4 + c / 64) :: b64Char (c % 64) :: base64Encode rest

/-- `response.headers.get('content-type') || 'image/jpeg'`: a missing or
empty declared content type defaults to `image/jpeg`. -/
def contentTypeOrDefault : Option String → String
  | none => "image/jpeg"
  | some c => if c == "" then "image/jpeg" else c

/-! ## Scrape POST handler (route.ts 178-254) -/

/-- Outcome of the image-byte `fetch` at the end of the scrape handler. -/
inductive ImgFetch where
  | fetchError
  | resp (ok : Bool) (contentType : Option String) (body : List Nat)

/-- The image-byte fetch failed: the call threw or the response was not
`ok`. -/
def imgFetchFailed : ImgFetch → Bool
  | .fetchError => true
  | .resp ok _ _ => !ok

/-- Responses of the scrape endpoint: an error JSON with its HTTP status, a
200 JSON with `imageUrl` and `base64Image`, or a 200 JSON with only
`imageUrl` (plus an advisory `message`, not carried in the model). -/
inductive ScrapeResponse where
  | err (status : Nat) (message : String)
  | okImage (imageUrl : String) (base64Image : String)
  | okUrlOnly (imageUrl : String)

/-- HTTP status of a scrape response (`NextResponse.json` defaults to 200). -/
def ScrapeResponse.statusCode : ScrapeResponse → Nat
  | .err s _ => s
  | _ => 200

/-- The 404 error message of the scrape endpoint. -/
def noImageMessage : String :=
  "Could not find product image on this page. Try copying the image URL directly (right-click on image > Copy image address)."

/-- Desktop scrape first, mobile-UA scrape only if the first was falsy
(route.ts 192-198). -/
def pickImageUrl (desktop mobile : PageFetch) (url : String) : Option String :=
  let i1 := simpleScrape desktop url
  if truthyS i1 then i1 else mobileScrape mobile url

/-- The POST handler of the scrape endpoint (route.ts 178-254). `body` is
the parse outcome of `request.json()` restricted to its `url` field
(`.error` = the body failed to parse, caught by the outer handler). -/
def scrapePOST (body : Except Unit (Option String)) (desktop mobile : PageFetch)
    (imgFetch : ImgFetch) : ScrapeResponse :=
  match body with
  | .error _ => .err 500 "Failed to scrape product image"
  | .ok urlField =>
    match urlField with
    | none => .err 400 "URL is required"
    | some url =>
      if url == "" then .err 400 "URL is required"
      else
        match pickImageUrl desktop mobile url with
        | none => .err 404 noImageMessage
        | some u =>
          if u == "" then .err 404 noImageMessage
          else
            match imgFetch with
            | .fetchError => .okUrlOnly u
            | .resp ok ct bodyBytes =>
              if ok then
                .okImage u
                  ("data:" ++ contentTypeOrDefault ct ++ ";base64," ++
                    String.mk (base64Encode bodyBytes))
              else .okUrlOnly u

/-! ## Fetch-image POST handler (fetch-image/route.ts) -/

/-- The request body of the fetch-image endpoint. -/
structure FetchReq where
  imageUrl : Option String
  referer : Option String

/-- Outcome of the image `fetch` of the fetch-image endpoint. -/
inductive FetchOutcome where
  | fetchError
  | resp (ok : Bool) (status : Nat) (contentType : Option String) (body : List Nat)

/-- Responses of the fetch-image endpoint. -/
inductive FetchImageResult where
  | err (status : Nat) (message : String)
  | success (base64Image : String) (contentType : String) (size : Nat)

/-- The POST handler of the fetch-image endpoint (fetch-image/route.ts
3-55). -/
def fetchImagePOST (body : Except Unit FetchReq) (outcome : FetchOutcome) : FetchImageResult :=
  match body with
  | .error _ => .err 500 "Failed to fetch image"
  | .ok req =>
    match req.imageUrl with
    | none => .err 400 "Image URL is required"
    | some u =>
      if u == "" then .err 400 "Image URL is required"
      else
        match outcome with
        | .fetchError => .err 500 "Failed to fetch image"
        | .resp ok status ct bodyBytes =>
          if !ok then .err 400 ("Could not fetch image (" ++ toString status ++ ")")
          else
            let contentType := contentTypeOrDefault ct
            if !(jsStartsWith contentType "image/") then
              .err 400 "URL does not point to an image"
            else
              .success
                ("data:" ++ contentType ++ ";base64," ++ String.mk (base64Encode bodyBytes))
                contentType bodyBytes.length

/-! ## Rendered-browser variant (src/unnamed/part_000)

Namespace `Dyn` models the scrape route variant that escalates to a
headless-browser session. Only the pieces the escalation and
resource-safety properties depend on are embedded: the client-rendered
heuristic of its `simpleScrape` (lines 21-28), the `browserScrape`
try/catch/finally structure (lines 140-274), and the POST escalation step
(lines 289-296). -/

namespace Dyn

/-- The facts about a fetched HTML text that this variant's `simpleScrape`
inspects: its length, the two client-rendered markers, and the outcome of
`extractImageFromHtml` on it (that extractor is the static one; `.error` =
it threw, caught by the surrounding `try`). -/
structure PageHtml where
  htmlLength : Nat
  hasEnableJsMarker : Bool
  hasChallengeMarker : Bool
  extracted : Except Unit (Option String)

/-- Outcome of the page `fetch` of `simpleScrape`. -/
inductive FetchPage where
  | fetchError
  | notOk
  | page (h : PageHtml)

/-- The client-rendered heuristic (part_000 lines 22-24): the page needs a
browser when it mentions enabling JavaScript, contains challenge text, or
its HTML is shorter than 5000 characters. -/
def needsBrowser (h : PageHtml) : Bool :=
  h.hasEnableJsMarker || h.hasChallengeMarker || decide (h.htmlLength < 5000)

/-- `simpleScrape` of part_000 (lines 6-32). -/
def simpleScrape : FetchPage → Option String
  | .fetchError => none
  | .notOk => none
  | .page h =>
    if needsBrowser h then none
    else match h.extracted with
      | .ok r => r
      | .error _ => none

/-- Environment of one `browserScrape` run: deployment kind, whether a local
Chrome executable exists, whether `puppeteer.launch` (or, on Vercel,
resolving the chromium executable) succeeds, whether page setup and
navigation complete within the timeout, and the outcome of the in-page
evaluation (`none` = it threw; `some r` = it returned `r`). -/
structure BrowserEnv where
  isVercel : Bool
  chromeFound : Bool
  launchOk : Bool
  gotoOk : Bool
  evalResult : Option (Option String)

/-- Observable outcome of one `browserScrape` run: the returned value,
whether a browser process was launched, and whether `browser.close()` ran. -/
structure BrowserRun where
  result : Option String
  launched : Bool
  closed : Bool

/-- `browserScrape` (part_000 lines 140-274): `let browser = null; try {...}
catch { return null } finally { if (browser) await browser.close(); }`.
When no local Chrome executable is found the function returns `null` before
launching; a launch failure leaves `browser` null; any later throw is
caught and the `finally` closes the session. -/
def browserScrape (env : BrowserEnv) : BrowserRun :=
  if !env.isVercel && !env.chromeFound then
    ⟨none, false, false⟩
  else if !env.launchOk then
    ⟨none, false, false⟩
  else if !env.gotoOk then
    ⟨none, true, true⟩
  else
    match env.evalResult with
    | none => ⟨none, true, true⟩
    | some r => ⟨r, true, true⟩

/-- The escalation step of this variant's POST (part_000 lines 289-296):
`browserScrape` runs exactly when `simpleScrape` produced a falsy value.
The second component records whether the dynamic extractor was invoked. -/
def pickImageUrl (pf : FetchPage) (env : BrowserEnv) : Option String × Bool :=
  match simpleScrape pf with
  | some u => if u == "" then ((browserScrape env).result, true) else (some u, false)
  | none => ((browserScrape env).result, true)

end Dyn

/-! ## Abbreviations for concrete scan scenarios -/

/-- An HTML scan whose only signal sources are its `ld+json` blocks. -/
def scanOfBlocks (bs : List (Option JVal)) : HtmlScan :=
  ⟨none, none, bs, [], [], []⟩

/-- A JSON-LD object `{"@type": "Product", "image": img}`. -/
def productBlock (img : JVal) : JVal :=
  .obj [("@type", .str "Product"), ("image", img)]

/-! ## Properties of URL normalization -/

theorem parseOrigin_http (base o : String) (h : parseOrigin base = some o) :
    jsStartsWith o "http" = true := by
  unfold parseOrigin at h
  split at h
  · injection h with h
    subst h
    exact jsStartsWith_append "https://" _ "http" rfl
  · split at h
    · injection h with h
      subst h
      exact jsStartsWith_append "http://" _ "http" rfl
    · exact Option.noConfusion h

/-- A raw URL beginning with `"http"` takes the pass-through branch. -/
theorem makeAbsolute_http (raw base : String) (h : jsStartsWith raw "http" = true) :
    makeAbsolute raw base = some raw := by
  obtain ⟨r, hr⟩ := (prefixB_iff (String.data "http") raw.data).1 h
  obtain ⟨l⟩ := raw
  have e : l = String.data "http" ++ r := hr
  subst e
  rfl

/-- C4. Corrected form of the normalization claim: for a well-formed base
URL, protocol-relative input is prefixed with `https:`, root-relative input
with the origin, and inputs beginning with `"http"` pass through unchanged,
so every produced URL begins with `"http"`; but a `data:` URL is not passed
through: it falls into the bare-relative branch and is prefixed with
origin + `/`. -/
theorem makeAbsolute_spec (raw base o : String) (hb : parseOrigin base = some o) :
    (∀ u, makeAbsolute raw base = some u → jsStartsWith u "http" = true) ∧
    (jsStartsWith raw "//" = true → makeAbsolute raw base = some ("https:" ++ raw)) ∧
    (jsStartsWith raw "//" = false → jsStartsWith raw "/" = true →
      makeAbsolute raw base = some (o ++ raw)) ∧
    (jsStartsWith raw "//" = false → jsStartsWith raw "/" = false →
      jsStartsWith raw "http" = true → makeAbsolute raw base = some raw) ∧
    (jsStartsWith raw "data:" = true → makeAbsolute raw base = some (o ++ "/" ++ raw)) := by
  have b2 : jsStartsWith raw "//" = true → makeAbsolute raw base = some ("https:" ++ raw) := by
    intro c
    simp [makeAbsolute, c]
  have b3 : jsStartsWith raw "//" = false → jsStartsWith raw "/" = true →
      makeAbsolute raw base = some (o ++ raw) := by
    intro c1 c2
    simp [makeAbsolute, c1, c2, hb]
  have b4 : jsStartsWith raw "//" = false → jsStartsWith raw "/" = false →
      jsStartsWith raw "http" = true → makeAbsolute raw base = some raw := by
    intro c1 c2 c3
    simp [makeAbsolute, c1, c2, c3]
  have b5 : jsStartsWith raw "//" = false → jsStartsWith raw "/" = false →
      jsStartsWith raw "http" = false → makeAbsolute raw base = some (o ++ "/" ++ raw) := by
    intro c1 c2 c3
    simp [makeAbsolute, c1, c2, c3, hb]
  refine ⟨?_, b2, b3, b4, ?_⟩
  · intro u hu
    cases hc1 : jsStartsWith raw "//" with
    | true =>
      rw [b2 hc1] at hu
      injection hu with hu
      subst hu
      exact jsStartsWith_append "https:" raw "http" rfl
    | false =>
      cases hc2 : jsStartsWith raw "/" with
      | true =>
        rw [b3 hc1 hc2] at hu
        injection hu with hu
        subst hu
        exact jsStartsWith_append o raw "http" (parseOrigin_http base o hb)
      | false =>
        cases hc3 : jsStartsWith raw "http" with
        | true =>
          rw [b4 hc1 hc2 hc3] at hu
          injection hu with hu
          subst hu
          exact hc3
        | false =>
          rw [b5 hc1 hc2 hc3] at hu
          injection hu with hu
          subst hu
          exact jsStartsWith_append (o ++ "/") raw "http"
            (jsStartsWith_append o "/" "http" (parseOrigin_http base o hb))
  · intro hd
    obtain ⟨r, hr⟩ := (prefixB_iff (String.data "data:") raw.data).1 hd
    obtain ⟨l⟩ := raw
    have e : l = String.data "data:" ++ r := hr
    subst e
    exact b5 rfl rfl rfl

/-- C4 witness: concrete protocol-relative input, resolved against a
concrete base page. -/
theorem makeAbsolute_spec_witness :
    makeAbsolute "//cdn.example.com/p.jpg" "https://shop.example.com/item" =
      some ("https:" ++ "//cdn.example.com/p.jpg") :=
  (makeAbsolute_spec "//cdn.example.com/p.jpg" "https://shop.example.com/item"
    "https://shop.example.com" (by decide)).2.1 (by decide)

/-- C4 counterexample: a `data:` URL is not passed through unchanged, as the
claim states for the `data:` scheme; it is treated as bare-relative and
prefixed with the base origin. -/
theorem data_url_not_passed_through :
    makeAbsolute "data:image/png;base64,AAAA" "https://shop.example.com/item" ≠
        some "data:image/png;base64,AAAA" ∧
      makeAbsolute "data:image/png;base64,AAAA" "https://shop.example.com/item" =
        some "https://shop.example.com/data:image/png;base64,AAAA" := by
  refine ⟨by decide, by decide⟩

/-! ## Properties of the candidate filter -/

/-- C5. Corrected form of the filter claim: the filter rejects a URL exactly
when one of the denylist tokens occurs in it as a contiguous, case-exact
substring; the JS `includes` match is case-sensitive, not case-insensitive. -/
theorem rejectedByDenylist_iff_token_occurs (s : String) :
    rejectedByDenylist s = true ↔
      ∃ t ∈ denylistTokens, ∃ a b, s.data = a ++ t.data ++ b := by
  unfold rejectedByDenylist
  rw [List.any_eq_true]
  constructor
  · rintro ⟨t, ht, h⟩
    exact ⟨t, ht, (subB_iff t.data s.data).1 h⟩
  · rintro ⟨t, ht, h⟩
    exact ⟨t, ht, (subB_iff t.data s.data).2 h⟩

/-- C5 counterexample: the claim calls the match case-insensitive, but a URL
containing `ICON` is not rejected while the same URL with `icon` is. -/
theorem denylist_case_sensitive :
    rejectedByDenylist "https://cdn.example.com/ICON.jpg" = false ∧
      rejectedByDenylist "https://cdn.example.com/icon.jpg" = true := by
  refine ⟨by decide, by decide⟩

/-! ## Properties of the static extractor's JSON-LD handling -/

/-- C6. Corrected form of the JSON-LD shapes claim: for a `Product` block the
three shapes of the `image` field are all handled, but an array yields only
its FIRST element as the single extracted candidate — a string is used
directly, an array contributes `image[0]`, and an object contributes its
`url` field. (Stated for absolute `http(s)` image URLs, which the
normalization step passes through.) -/
theorem jsonld_image_shapes (u1 u2 v w base : String)
    (h1 : jsStartsWith u1 "http" = true)
    (h2 : jsStartsWith v "http" = true)
    (h3 : jsStartsWith w "http" = true) :
    extractImageFromHtml
        (scanOfBlocks [some (productBlock (.arr [.str u1, .str u2]))]) base =
      .ok (some u1) ∧
    extractImageFromHtml (scanOfBlocks [some (productBlock (.str v))]) base =
      .ok (some v) ∧
    extractImageFromHtml
        (scanOfBlocks [some (productBlock (.obj [("url", .str w)]))]) base =
      .ok (some w) := by
  obtain ⟨r1, hr1⟩ := (prefixB_iff (String.data "http") u1.data).1 h1
  obtain ⟨l1⟩ := u1
  have e1 : l1 = String.data "http" ++ r1 := hr1
  subst e1
  obtain ⟨r2, hr2⟩ := (prefixB_iff (String.data "http") v.data).1 h2
  obtain ⟨l2⟩ := v
  have e2 : l2 = String.data "http" ++ r2 := hr2
  subst e2
  obtain ⟨r3, hr3⟩ := (prefixB_iff (String.data "http") w.data).1 h3
  obtain ⟨l3⟩ := w
  have e3 : l3 = String.data "http" ++ r3 := hr3
  subst e3
  exact ⟨rfl, rfl, rfl⟩

/-- C6 witness: a concrete `Product` block whose image field is an array of
two URLs. -/
theorem jsonld_image_shapes_witness :
    extractImageFromHtml
        (scanOfBlocks [some (productBlock
          (.arr [.str "https://a.example.com/1.jpg", .str "https://a.example.com/2.jpg"]))])
        "https://shop.example.com/item" =
      .ok (some "https://a.example.com/1.jpg") :=
  (jsonld_image_shapes "https://a.example.com/1.jpg" "https://a.example.com/2.jpg"
    "https://a.example.com/3.jpg" "https://a.example.com/4.jpg"
    "https://shop.example.com/item" (by decide) (by decide) (by decide)).1

/-- C6 counterexample: the claim says both URLs of the array are yielded as
separate candidates, but the extractor returns a single URL and it is the
first array element only; the second URL does not appear in the result. -/
theorem jsonld_array_yields_first_only :
    extractImageFromHtml
        (scanOfBlocks [some (productBlock
          (.arr [.str "https://cdn.example.com/a.jpg", .str "https://cdn.example.com/b.jpg"]))])
        "https://shop.example.com/item" =
      .ok (some "https://cdn.example.com/a.jpg") ∧
      ("https://cdn.example.com/a.jpg" : String) ≠ "https://cdn.example.com/b.jpg" := by
  refine ⟨rfl, by decide⟩

/-- Skipping lemma for the block loop: a failed-parse block anywhere in the
list leaves the loop's outcome unchanged. -/
theorem processBlocks_skip_none (ys : List (Option JVal)) :
    ∀ (xs : List (Option JVal)) (cur : Option JVal),
      processBlocks cur (xs ++ none :: ys) = processBlocks cur (xs ++ ys) := by
  intro xs
  induction xs with
  | nil =>
    intro cur
    simp [processBlocks]
  | cons b rest ih =>
    intro cur
    cases b with
    | none =>
      simp only [List.cons_append, processBlocks]
      exact ih cur
    | some data =>
      simp only [List.cons_append, processBlocks]
      cases processSchemas cur (match data with | .arr xs => xs | v => [v]) with
      | error cur2 => exact ih cur2
      | ok cur2 =>
        by_cases h : truthyJ cur2 = true
        · simp [h]
        · simp only [Bool.not_eq_true] at h
          simp [h]
          exact ih cur2

/-- C8. A structured-data block that fails to parse as JSON is skipped on
its own: the extraction outcome over the whole scan — remaining blocks and
all later signal sources included — is identical to the outcome without the
malformed block. -/
theorem malformed_block_skipped (og tw : Option String) (xs ys : List (Option JVal))
    (da cp : List (Option String)) (im : List String) (base : String) :
    extractImageFromHtml ⟨og, tw, xs ++ none :: ys, da, cp, im⟩ base =
      extractImageFromHtml ⟨og, tw, xs ++ ys, da, cp, im⟩ base := by
  unfold extractImageFromHtml
  simp only [processBlocks_skip_none]

/-! ## Properties of the scrape POST handler -/

/-- C1. Corrected form of the boundary-contract claim: with a non-empty page
URL the endpoint returns 200 exactly when an image URL was extracted, and
404 — an error status — exactly when extraction found nothing; a missing
page URL yields 400 and an unparseable request body yields 500. The
endpoint does NOT return a 200-style response with an empty result on
extraction failure. -/
theorem scrapePOST_status_spec (desktop mobile : PageFetch) (imgFetch : ImgFetch)
    (url : String) (h : (url == "") = false) :
    ((scrapePOST (.ok (some url)) desktop mobile imgFetch).statusCode = 200 ↔
        truthyS (pickImageUrl desktop mobile url) = true) ∧
    ((scrapePOST (.ok (some url)) desktop mobile imgFetch).statusCode = 404 ↔
        truthyS (pickImageUrl desktop mobile url) = false) ∧
    (scrapePOST (.ok none) desktop mobile imgFetch).statusCode = 400 ∧
    (scrapePOST (.error ()) desktop mobile imgFetch).statusCode = 500 := by
  have key : (scrapePOST (.ok (some url)) desktop mobile imgFetch).statusCode =
      if truthyS (pickImageUrl desktop mobile url) = true then 200 else 404 := by
    cases hp : pickImageUrl desktop mobile url with
    | none => simp [scrapePOST, h, hp, truthyS, ScrapeResponse.statusCode]
    | some u =>
      cases hu : u == "" with
      | true => simp [scrapePOST, h, hp, hu, truthyS, ScrapeResponse.statusCode]
      | false =>
        cases imgFetch with
        | fetchError =>
          simp [scrapePOST, h, hp, hu, truthyS, ScrapeResponse.statusCode]
        | resp ok ct b =>
          cases ok <;>
            simp [scrapePOST, h, hp, hu, truthyS, ScrapeResponse.statusCode]
  refine ⟨?_, ?_, rfl, rfl⟩
  · rw [key]
    cases ht : truthyS (pickImageUrl desktop mobile url) <;> simp [ht]
  · rw [key]
    cases ht : truthyS (pickImageUrl desktop mobile url) <;> simp [ht]

/-- C1 witness: with a concrete non-empty page URL and failed page fetches,
the 404-iff-no-candidate equivalence holds. -/
theorem scrapePOST_status_spec_witness :
    (scrapePOST (.ok (some "https://shop.example.com/item"))
        .fetchError .fetchError .fetchError).statusCode = 404 ↔
      truthyS (pickImageUrl .fetchError .fetchError "https://shop.example.com/item") = false :=
  (scrapePOST_status_spec .fetchError .fetchError .fetchError
    "https://shop.example.com/item" (by decide)).2.1

/-- C1 counterexample: a request with a non-empty page URL whose extraction
fails receives a 404 error response, not a 200-style response with an empty
result, contradicting the claim that an error status is returned only for a
missing page URL. -/
theorem extraction_failure_returns_404 :
    scrapePOST (.ok (some "https://shop.example.com/item"))
        .fetchError .fetchError .fetchError = .err 404 noImageMessage ∧
      (scrapePOST (.ok (some "https://shop.example.com/item"))
        .fetchError .fetchError .fetchError).statusCode ≠ 200 := by
  refine ⟨rfl, by decide⟩

/-- C10. When an image URL was extracted but the follow-up byte fetch throws
or returns a non-`ok` response, the endpoint still answers 200, carrying the
extracted `imageUrl` (with an advisory message) and no base64 payload. -/
theorem fetch_failure_returns_url_only (desktop mobile : PageFetch) (imgFetch : ImgFetch)
    (url u : String) (h : (url == "") = false)
    (hp : pickImageUrl desktop mobile url = some u) (hu : (u == "") = false)
    (hf : imgFetchFailed imgFetch = true) :
    scrapePOST (.ok (some url)) desktop mobile imgFetch = .okUrlOnly u ∧
      (scrapePOST (.ok (some url)) desktop mobile imgFetch).statusCode = 200 := by
  have key : scrapePOST (.ok (some url)) desktop mobile imgFetch = .okUrlOnly u := by
    cases imgFetch with
    | fetchError => simp [scrapePOST, h, hp, hu]
    | resp ok ct b =>
      cases ok with
      | true => simp [imgFetchFailed] at hf
      | false => simp [scrapePOST, h, hp, hu]
  exact ⟨key, by rw [key]; rfl⟩

/-- C10 witness: a concrete page whose Open Graph tag yields an image URL,
with the byte fetch throwing. -/
theorem fetch_failure_returns_url_only_witness :
    scrapePOST (.ok (some "https://shop.example.com/item"))
        (.ok ⟨some "https://cdn.example.com/p.jpg", none, [], [], [], []⟩)
        .fetchError .fetchError =
      .okUrlOnly "https://cdn.example.com/p.jpg" :=
  (fetch_failure_returns_url_only
    (.ok ⟨some "https://cdn.example.com/p.jpg", none, [], [], [], []⟩)
    .fetchError .fetchError "https://shop.example.com/item"
    "https://cdn.example.com/p.jpg" (by decide) (by decide) (by decide) (by decide)).1

/-! ## Properties of the fetch-image POST handler -/

/-- C3. Corrected form of the fetcher claim: a non-`ok` response fails with
the 400 error naming the status; an `ok` response with a NON-EMPTY declared
content type not beginning with `image/` fails with the distinct 400 error;
an `ok` response whose declared content type begins with `image/` yields the
data-URI payload combining the content type and base64 body, plus the
content type and byte size. (An empty declared content type does not fail:
it defaults to `image/jpeg`, see the counterexample.) -/
theorem fetchImagePOST_spec (u : String) (r : Option String) (status : Nat)
    (ct : Option String) (body : List Nat) (hu : (u == "") = false) :
    (fetchImagePOST (.ok ⟨some u, r⟩) (.resp false status ct body) =
        .err 400 ("Could not fetch image (" ++ toString status ++ ")")) ∧
    (∀ c, ct = some c → (c == "") = false → jsStartsWith c "image/" = false →
        fetchImagePOST (.ok ⟨some u, r⟩) (.resp true status ct body) =
          .err 400 "URL does not point to an image") ∧
    (∀ c, ct = some c → jsStartsWith c "image/" = true →
        fetchImagePOST (.ok ⟨some u, r⟩) (.resp true status ct body) =
          .success ("data:" ++ c ++ ";base64," ++ String.mk (base64Encode body)) c
            body.length) := by
  refine ⟨?_, ?_, ?_⟩
  · simp [fetchImagePOST, hu]
  · rintro c rfl hc hns
    simp [fetchImagePOST, hu, contentTypeOrDefault, hc, hns]
  · rintro c rfl hns
    have hc : (c == "") = false :=
      startsWith_ne_empty c "image/" 'i' ['m', 'a', 'g', 'e', '/'] rfl hns
    simp [fetchImagePOST, hu, contentTypeOrDefault, hc, hns]

/-- C3 witness: a concrete failed image fetch produces the status-bearing
client error. -/
theorem fetchImagePOST_spec_witness :
    fetchImagePOST (.ok ⟨some "https://cdn.example.com/a.jpg", none⟩)
        (.resp false 404 none []) =
      .err 400 ("Could not fetch image (" ++ toString 404 ++ ")") :=
  (fetchImagePOST_spec "https://cdn.example.com/a.jpg" none 404 none []
    (by decide)).1

/-- C3 counterexample: a successful response declaring an EMPTY content type
does not begin with `image/`, yet the endpoint does not fail — the empty
declared type is replaced by the `image/jpeg` default and the request
succeeds, contradicting the claim's second case as universally stated. -/
theorem empty_content_type_succeeds :
    jsStartsWith "" "image/" = false ∧
      fetchImagePOST (.ok ⟨some "https://cdn.example.com/a", none⟩)
          (.resp true 200 (some "") []) =
        .success "data:image/jpeg;base64," "image/jpeg" 0 := by
  refine ⟨rfl, rfl⟩

/-- C9. A successful response carrying no content-type header is not
rejected: the missing declared type defaults to `image/jpeg`, passes the
`image/` validation, and the returned payload is labeled `image/jpeg`. -/
theorem missing_content_type_defaults_jpeg (u : String) (r : Option String)
    (status : Nat) (body : List Nat) (hu : (u == "") = false) :
    fetchImagePOST (.ok ⟨some u, r⟩) (.resp true status none body) =
      .success ("data:image/jpeg;base64," ++ String.mk (base64Encode body))
        "image/jpeg" body.length := by
  have hns : jsStartsWith "image/jpeg" "image/" = true := rfl
  simp [fetchImagePOST, hu, contentTypeOrDefault, hns]

/-- C9 witness: concrete request and header-less successful response. -/
theorem missing_content_type_defaults_jpeg_witness :
    fetchImagePOST (.ok ⟨some "https://cdn.example.com/p.png", none⟩)
        (.resp true 200 none []) =
      .success ("data:image/jpeg;base64," ++ String.mk (base64Encode []))
        "image/jpeg" 0 :=
  missing_content_type_defaults_jpeg "https://cdn.example.com/p.png" none 200 []
    (by decide)

/-! ## Properties of the rendered-browser variant -/

/-- C2. In every `browserScrape` run, a browser session that was launched is
closed, on every exit path (success, navigation timeout, thrown error); and
when no rendering backend is available outside the serverless environment —
no Chrome executable found — the extractor returns `null` without launching
anything, instead of failing the run. -/
theorem browserScrape_closes_session (env : Dyn.BrowserEnv) :
    ((Dyn.browserScrape env).launched = true → (Dyn.browserScrape env).closed = true) ∧
    (env.isVercel = false → env.chromeFound = false →
      (Dyn.browserScrape env).result = none ∧
        (Dyn.browserScrape env).launched = false) := by
  obtain ⟨iv, cf, lo, go, ev⟩ := env
  cases iv <;> cases cf <;> cases lo <;> cases go <;> cases ev <;>
    simp [Dyn.browserScrape]

/-- C2 witness: the no-Chrome, non-serverless environment degrades to an
empty result with no session. -/
theorem browserScrape_closes_session_witness :
    (Dyn.browserScrape ⟨false, false, false, false, none⟩).result = none ∧
      (Dyn.browserScrape ⟨false, false, false, false, none⟩).launched = false :=
  (browserScrape_closes_session ⟨false, false, false, false, none⟩).2 rfl rfl

/-- C7. Corrected form of the escalation claim: the orchestrator escalates
to the rendered-browser extractor exactly when the static pass produced no
candidate at all (a falsy result) — there is no fewer-than-3 threshold, and
a static result of one candidate does NOT escalate; the static pass itself
returns no candidate whenever the page looks client-rendered (body shorter
than 5000 characters, or enable-JavaScript / challenge markers). -/
theorem escalation_iff_static_empty (pf : Dyn.FetchPage) (env : Dyn.BrowserEnv) :
    ((Dyn.pickImageUrl pf env).2 = true ↔ truthyS (Dyn.simpleScrape pf) = false) ∧
    (∀ h, pf = .page h → Dyn.needsBrowser h = true → Dyn.simpleScrape pf = none) := by
  constructor
  · cases hs : Dyn.simpleScrape pf with
    | none => simp [Dyn.pickImageUrl, hs, truthyS]
    | some u =>
      cases hu : u == "" with
      | true => simp [Dyn.pickImageUrl, hs, hu, truthyS]
      | false => simp [Dyn.pickImageUrl, hs, hu, truthyS]
  · rintro h rfl hn
    simp [Dyn.simpleScrape, hn]

/-- C7 witness: a short (client-rendered-looking) page makes the static pass
return nothing. -/
theorem escalation_iff_static_empty_witness :
    Dyn.simpleScrape
        (.page ⟨100, false, false, .ok (some "https://x.example.com/a.jpg")⟩) = none :=
  (escalation_iff_static_empty
      (.page ⟨100, false, false, .ok (some "https://x.example.com/a.jpg")⟩)
      ⟨false, false, false, false, none⟩).2
    ⟨100, false, false, .ok (some "https://x.example.com/a.jpg")⟩ rfl (by decide)

/-- C7 counterexample: the static pass yields exactly one candidate — below
the claimed threshold of 3 — yet the orchestrator does not escalate to the
dynamic extractor. -/
theorem one_candidate_no_escalation :
    Dyn.simpleScrape
        (.page ⟨6000, false, false, .ok (some "https://shop.example.com/p.jpg")⟩) =
      some "https://shop.example.com/p.jpg" ∧
      (Dyn.pickImageUrl
          (.page ⟨6000, false, false, .ok (some "https://shop.example.com/p.jpg")⟩)
          ⟨false, false, false, false, none⟩).2 = false := by
  refine ⟨rfl, rfl⟩
